import Mathlib

set_option linter.unnecessarySeqFocus false

/-!
Shallow embedding of the gophercloud OpenStack client layer: provider setup
(NewClient), identity version negotiation (Authenticate), the v2/v3
authentication paths with their reauthentication callbacks, the generic
service-client constructor (initClientOpts) and two wrappers, and the
networking v2 subnets request builders (create/update bodies and headers).
External effects (HTTP responses, endpoint lookups) are passed in as explicit
environment values; traces of issued network calls are returned alongside
results so that ordering properties can be stated.
-/

namespace Gophercloud

/-- Errors surfaced by the client layer. -/
inductive Err : Type where
  | identityClient
  | reauthMisuse
  | httpErr (code : Nat)
  | versionConflict
  | unrecognizedVersion (id : String)
  | locatorFailed
  | chooseVersionFailed
  | nilDeref
deriving DecidableEq

/-- Authentication scope (project/domain the token is requested for).
All fields default to the zero value, matching the Go zero struct. -/
structure AuthScope where
  projectID : String := ""
  projectName : String := ""
  domainID : String := ""
  domainName : String := ""
  system : Bool := false
deriving DecidableEq

/-- Service catalog returned by the identity service; entries are opaque here. -/
abbrev ServiceCatalog := List String

/-- A successful authentication response: the issued token and the catalog. -/
structure AuthResp where
  tokenID : String
  catalog : ServiceCatalog
deriving DecidableEq

/-- The concrete types behind the tokens3.AuthOptionsBuilder interface that
v3auth inspects with type switches: gophercloud.AuthOptions,
tokens3.AuthOptions, ec2tokens.AuthOptions, oauth1.AuthOptions, and any
other (external) implementation of the interface, of which only the
CanReauth answer is relevant to v3auth. -/
inductive V3AuthOpts : Type where
  | gophercloudAO (tokenID : String) (scope : Option AuthScope) (allowReauth : Bool)
  | tokens3AO (tokenID : String) (scope : AuthScope) (allowReauth : Bool)
  | ec2AO (allowReauth : Bool)
  | oauth1AO (allowReauth : Bool)
  | otherBuilder (reauthAllowed : Bool)
deriving DecidableEq

/-- CanReauth on each builder variant. -/
def V3AuthOpts.canReauth : V3AuthOpts → Bool
  | .gophercloudAO _ _ r => r
  | .tokens3AO _ _ r => r
  | .ec2AO r => r
  | .oauth1AO r => r
  | .otherBuilder r => r

/-- The tokenID extracted by the type switch at the top of v3auth
(zero value for variants the switch does not handle). -/
def V3AuthOpts.tokenID : V3AuthOpts → String
  | .gophercloudAO t _ _ => t
  | .tokens3AO t _ _ => t
  | _ => ""

/-- The passthroughToken flag computed by the type switch at the top of
v3auth: the scope is nil or the zero scope value. -/
def V3AuthOpts.passthroughToken : V3AuthOpts → Bool
  | .gophercloudAO _ s _ =>
    match s with
    | none => true
    | some sc => sc == ({} : AuthScope)
  | .tokens3AO _ s _ => s == ({} : AuthScope)
  | _ => false

/-- The throwaway auth options computed by the type switch in the reauth
block of v3auth: the four known types get AllowReauth set to false, the
default case passes the options through unchanged. -/
def V3AuthOpts.reauthDisabledCopy : V3AuthOpts → V3AuthOpts
  | .gophercloudAO t s _ => .gophercloudAO t s false
  | .tokens3AO t s _ => .tokens3AO t s false
  | .ec2AO _ => .ec2AO false
  | .oauth1AO _ => .oauth1AO false
  | .otherBuilder r => .otherBuilder r

/-- Whether the options are one of the four builder types the reauth type
switch in v3auth handles explicitly. -/
def V3AuthOpts.isKnownBuilder : V3AuthOpts → Bool
  | .otherBuilder _ => false
  | _ => true

/-- The tokens2.AuthOptionsBuilder implementations relevant to v2auth: a
plain builder, or the v2TokenNoReauth wrapper defined in the client file,
whose CanReauth always answers false. -/
inductive V2AuthOpts : Type where
  | builder (allowReauth : Bool)
  | v2TokenNoReauth (inner : V2AuthOpts)
deriving DecidableEq

/-- CanReauth for the v2 builders: the wrapper always answers false. -/
def V2AuthOpts.canReauth : V2AuthOpts → Bool
  | .builder r => r
  | .v2TokenNoReauth _ => false

mutual
/-- The shared provider state (gophercloud.ProviderClient): identity base
URL, current token and auth result, the installed reauthentication
callback, the catalog the installed EndpointLocator resolves against,
the throwaway marker and the token-lock flag. -/
inductive Provider : Type where
  | mk (identityBase : String) (token : String) (authResult : Option AuthResp)
      (reauth : ReauthSpec) (locatorCatalog : Option ServiceCatalog)
      (throwaway : Bool) (tokenLock : Bool) : Provider

/-- The data captured by an installed ReauthFunc closure: the throwaway
provider copy, the auth options it will use, and the endpoint. -/
inductive ReauthSpec : Type where
  | noFunc : ReauthSpec
  | v3closure (tac : Provider) (tao : V3AuthOpts) (endpoint : String) : ReauthSpec
  | v2closure (tac : Provider) (tao : V2AuthOpts) (endpoint : String) : ReauthSpec
end

def Provider.identityBase : Provider → String
  | .mk ib _ _ _ _ _ _ => ib

def Provider.token : Provider → String
  | .mk _ t _ _ _ _ _ => t

def Provider.authResult : Provider → Option AuthResp
  | .mk _ _ ar _ _ _ _ => ar

def Provider.reauth : Provider → ReauthSpec
  | .mk _ _ _ rf _ _ _ => rf

def Provider.locatorCatalog : Provider → Option ServiceCatalog
  | .mk _ _ _ _ lc _ _ => lc

def Provider.throwaway : Provider → Bool
  | .mk _ _ _ _ _ tw _ => tw

def Provider.tokenLock : Provider → Bool
  | .mk _ _ _ _ _ _ tl => tl

/-- SetTokenAndAuthResult with a successful result: stores the token
extracted from the result and the result itself. -/
def Provider.setTokenAndAuthResult : Provider → AuthResp → Provider
  | .mk ib _ _ rf lc tw tl, r => .mk ib r.tokenID (some r) rf lc tw tl

/-- SetTokenAndAuthResult(nil): clears the token and the auth result. -/
def Provider.clearTokenAndAuthResult : Provider → Provider
  | .mk ib _ _ rf lc tw tl => .mk ib "" none rf lc tw tl

def Provider.setReauth : Provider → ReauthSpec → Provider
  | .mk ib t ar _ lc tw tl, rf => .mk ib t ar rf lc tw tl

def Provider.setThrowaway : Provider → Bool → Provider
  | .mk ib t ar rf lc _ tl, b => .mk ib t ar rf lc b tl

def Provider.setLocatorCatalog : Provider → Option ServiceCatalog → Provider
  | .mk ib t ar rf _ tw tl, lc => .mk ib t ar rf lc tw tl

/-- CopyTokenFrom: copies the token and auth result of the other provider. -/
def Provider.copyTokenFrom : Provider → Provider → Provider
  | .mk ib _ _ rf lc tw tl, other => .mk ib other.token other.authResult rf lc tw tl

/-- Network calls the authentication paths can issue. -/
inductive NetCall : Type where
  | tokens3Get (tokenID : String)
  | tokens3Create
  | ec2tokensCreate
  | oauth1Create
  | tokens2Create
deriving DecidableEq

/-- Which create call the else-branch of v3auth issues for the given
option type. -/
def v3CreateCall : V3AuthOpts → NetCall
  | .ec2AO _ => .ec2tokensCreate
  | .oauth1AO _ => .oauth1Create
  | _ => .tokens3Create

/-- Environment for one v3auth run: whether NewIdentityV3 succeeds, and the
responses the identity service would return to a token lookup and to a
token create. -/
structure V3Env where
  identityV3Ok : Bool
  getResp : Except Err AuthResp
  createResp : Except Err AuthResp

/-- Environment for one v2auth run. -/
structure V2Env where
  identityV2Ok : Bool
  createResp : Except Err AuthResp

/-- Shared tail of v3auth (source lines 245-290): install the
reauthentication callback when the options allow reauth, then install the
EndpointLocator resolving against the extracted catalog. -/
def v3installTail (client : Provider) (endpoint : String) (opts : V3AuthOpts)
    (catalog : ServiceCatalog) : Provider :=
  let c2 :=
    if opts.canReauth then
      let tac := ((client.setThrowaway true).setReauth .noFunc).clearTokenAndAuthResult
      let tao := opts.reauthDisabledCopy
      client.setReauth (ReauthSpec.v3closure tac tao endpoint)
    else client
  c2.setLocatorCatalog (some catalog)

/-- The v3auth function: token passthrough path (with the AllowReauth
misuse check before the tokens3.Get call) or fresh credential exchange,
followed by the reauth callback installation and the EndpointLocator
installation. Returns the trace of issued network calls and the outcome. -/
def v3auth (env : V3Env) (client : Provider) (endpoint : String) (opts : V3AuthOpts) :
    List NetCall × Except Err Provider :=
  if env.identityV3Ok = false then
    ([], .error .identityClient)
  else
    if opts.tokenID != "" && opts.passthroughToken then
      if opts.canReauth then
        ([], .error .reauthMisuse)
      else
        match env.getResp with
        | .error e => ([NetCall.tokens3Get opts.tokenID], .error e)
        | .ok result =>
          ([NetCall.tokens3Get opts.tokenID],
           .ok (v3installTail (client.setTokenAndAuthResult result) endpoint opts result.catalog))
    else
      match env.createResp with
      | .error e => ([v3CreateCall opts], .error e)
      | .ok result =>
        ([v3CreateCall opts],
         .ok (v3installTail (client.setTokenAndAuthResult result) endpoint opts result.catalog))

/-- Shared tail of v2auth (source lines 145-167): install the
reauthentication callback when the options allow reauth (wrapping the
options in v2TokenNoReauth), then install the EndpointLocator resolving
against the extracted catalog. -/
def v2installTail (client : Provider) (endpoint : String) (opts : V2AuthOpts)
    (catalog : ServiceCatalog) : Provider :=
  let c2 :=
    if opts.canReauth then
      client.setReauth (ReauthSpec.v2closure
        (((client.setThrowaway true).setReauth .noFunc).clearTokenAndAuthResult)
        (V2AuthOpts.v2TokenNoReauth opts) endpoint)
    else client
  c2.setLocatorCatalog (some catalog)

/-- The v2auth function: fresh credential exchange against tokens2.Create,
then the reauth callback installation and the EndpointLocator
installation. -/
def v2auth (env : V2Env) (client : Provider) (endpoint : String) (opts : V2AuthOpts) :
    List NetCall × Except Err Provider :=
  if env.identityV2Ok = false then
    ([], .error .identityClient)
  else
    match env.createResp with
    | .error e => ([NetCall.tokens2Create], .error e)
    | .ok result =>
      ([NetCall.tokens2Create],
       .ok (v2installTail (client.setTokenAndAuthResult result) endpoint opts result.catalog))

/-- One invocation of an installed v3 ReauthFunc closure: run v3auth on the
captured throwaway copy; on error return it with the live provider
untouched, on success copy the new token into the live provider. -/
def runV3Reauth (env : V3Env) (live : Provider) (tac : Provider) (tao : V3AuthOpts)
    (endpoint : String) : List NetCall × Option Err × Provider :=
  match v3auth env tac endpoint tao with
  | (calls, .error e) => (calls, some e, live)
  | (calls, .ok tacNew) => (calls, none, live.copyTokenFrom tacNew)

/-- One invocation of an installed v2 ReauthFunc closure. -/
def runV2Reauth (env : V2Env) (live : Provider) (tac : Provider) (tao : V2AuthOpts)
    (endpoint : String) : List NetCall × Option Err × Provider :=
  match v2auth env tac endpoint tao with
  | (calls, .error e) => (calls, some e, live)
  | (calls, .ok tacNew) => (calls, none, live.copyTokenFrom tacNew)

/-- NewClient: base-endpoint computation (utils.BaseEndpoint, which can fail
on a malformed URL and is not part of the sources) is passed in as its
outcome; on success the provider is initialized with the token lock enabled. -/
def NewClient (baseResult : Except Err String) (_endpoint : String) : Except Err Provider :=
  match baseResult with
  | .error e => .error e
  | .ok base =>
    .ok (Provider.mk base "" none ReauthSpec.noFunc none false true)

/-- An entry of the supported-versions list handed to utils.ChooseVersion. -/
structure UtilsVersion where
  id : String
  priority : Nat
  suffix : String
deriving DecidableEq

/-- The versions list built by Authenticate. -/
def identityVersions : List UtilsVersion :=
  [{ id := "v2.0", priority := 20, suffix := "/v2.0/" },
   { id := "v3", priority := 30, suffix := "/v3/" }]

/-- Modelled from the spec: utils.ChooseVersion is not part of the sources.
Per the spec, the identity endpoint is probed for the versions it
advertises and the highest-priority supported version among them is
chosen, together with the absolute endpoint computed for it. -/
def chooseVersion (base : String) (advertised : List String)
    (supported : List UtilsVersion) : Except Err (UtilsVersion × String) :=
  let candidates := supported.filter (fun v => advertised.contains v.id)
  let best := candidates.foldl (fun acc v =>
    match acc with
    | none => some v
    | some w => if w.priority < v.priority then some v else some w) none
  match best with
  | none => .error .chooseVersionFailed
  | some v => .ok (v, base ++ v.suffix)

/-- The gophercloud.AuthOptions struct fields relevant to this layer. -/
structure AuthOptions where
  identityEndpoint : String := ""
  tokenID : String := ""
  scope : Option AuthScope := none
  allowReauth : Bool := false
deriving DecidableEq

/-- The options as seen by v3auth through the builder interface. -/
def AuthOptions.toV3 (o : AuthOptions) : V3AuthOpts :=
  .gophercloudAO o.tokenID o.scope o.allowReauth

/-- The options as seen by v2auth through the builder interface. -/
def AuthOptions.toV2 (o : AuthOptions) : V2AuthOpts :=
  .builder o.allowReauth

/-- The switch at the end of Authenticate: dispatch on the chosen version
ID, with an unrecognized-version error in the default branch. -/
def authDispatch (env3 : V3Env) (env2 : V2Env) (client : Provider)
    (chosen : UtilsVersion) (endpoint : String) (opts3 : V3AuthOpts)
    (opts2 : V2AuthOpts) : List NetCall × Except Err Provider :=
  if chosen.id = "v2.0" then v2auth env2 client endpoint opts2
  else if chosen.id = "v3" then v3auth env3 client endpoint opts3
  else ([], .error (Err.unrecognizedVersion chosen.id))

/-- Authenticate: build the versions list, choose a version and an absolute
endpoint for the identity base of the client, and dispatch to the matching
authentication path. -/
def Authenticate (env3 : V3Env) (env2 : V2Env) (client : Provider)
    (options : AuthOptions) (advertised : List String) :
    List NetCall × Except Err Provider :=
  match chooseVersion client.identityBase advertised identityVersions with
  | .error e => ([], .error e)
  | .ok (chosen, endpoint) =>
    authDispatch env3 env2 client chosen endpoint options.toV3 options.toV2

/-- The gophercloud.EndpointOpts fields relevant to this layer. -/
structure EndpointOpts where
  typ : String := ""
  region : String := ""
  availability : String := ""
  version : Nat := 0
deriving DecidableEq

/-- Modelled from the spec: gophercloud.EndpointOpts.ApplyDefaults is not
part of the sources. Per the spec, defaults are filled in when the caller
under-specifies (the service type from the constructor, the public
interface), while explicitly set fields, in particular the version, are
kept. -/
def applyDefaults (clientType : String) (eo : EndpointOpts) : EndpointOpts :=
  if eo.typ = "" then
    if eo.availability = "" then { eo with typ := clientType, availability := "public" }
    else { eo with typ := clientType }
  else
    if eo.availability = "" then { eo with availability := "public" }
    else eo

/-- The gophercloud.ServiceClient fields relevant to this layer. The zero
value models the freshly allocated client of initClientOpts. -/
structure ServiceClient where
  hasProvider : Bool := false
  endpoint : String := ""
  typ : String := ""
  resourceBase : String := ""
  moreHeaders : List (String × String) := []
deriving DecidableEq

/-- initClientOpts: allocate a zero-valued client, apply endpoint-option
defaults, reject a conflicting explicit version before consulting the
endpoint locator, then resolve the endpoint. The first component is the
trace of endpoint-locator invocations; the returned client pointer is
modelled as an Option, with none standing for a nil pointer. -/
def initClientOpts (locator : EndpointOpts → Except Err String)
    (eo : EndpointOpts) (clientType : String) (version : Nat) :
    List EndpointOpts × Option ServiceClient × Option Err :=
  if (applyDefaults clientType eo).version ≠ 0 ∧
      (applyDefaults clientType eo).version ≠ version then
    ([], some ({} : ServiceClient), some Err.versionConflict)
  else
    match locator { applyDefaults clientType eo with version := version } with
    | .error e =>
      ([{ applyDefaults clientType eo with version := version }],
       some ({} : ServiceClient), some e)
    | .ok url =>
      ([{ applyDefaults clientType eo with version := version }],
       some { hasProvider := true, endpoint := url, typ := clientType }, none)

/-- NewNetworkV2: sets ResourceBase from the returned client before the
error is examined; a nil returned client would make this dereference
crash, modelled by a none result. -/
def NewNetworkV2 (locator : EndpointOpts → Except Err String) (eo : EndpointOpts) :
    Option ServiceClient × Option Err :=
  match initClientOpts locator eo "network" 2 with
  | (_, none, _) => (none, some Err.nilDeref)
  | (_, some sc, e) => (some { sc with resourceBase := sc.endpoint ++ "v2.0/" }, e)

/-- strings.HasSuffix. -/
def goHasSuffix (s suffix : String) : Bool := suffix.data.isSuffixOf s.data

/-- strings.TrimSuffix: removes one trailing occurrence of the suffix when
present. -/
def goTrimSuffix (s suffix : String) : String :=
  if goHasSuffix s suffix then
    (s.data.take (s.data.length - suffix.data.length)).asString
  else s

/-- NewBareMetalV1: inspects the returned client's endpoint before the
error is examined, appending the version segment when it is missing. -/
def NewBareMetalV1 (locator : EndpointOpts → Except Err String) (eo : EndpointOpts) :
    Option ServiceClient × Option Err :=
  match initClientOpts locator eo "baremetal" 1 with
  | (_, none, _) => (none, some Err.nilDeref)
  | (_, some sc, e) =>
    if goHasSuffix (goTrimSuffix sc.endpoint "/") "v1" = false then
      (some { sc with resourceBase := sc.endpoint ++ "v1/" }, e)
    else (some sc, e)

/-- JSON-like values of the built request bodies. -/
inductive JVal : Type where
  | null
  | str (s : String)
  | num (n : Int)
  | boolean (b : Bool)
  | arr (xs : List JVal)
  | obj (fields : List (String × JVal))

namespace Subnets

/-- An allocation pool (start and end address). -/
structure AllocationPool where
  start : String := ""
  stop : String := ""
deriving DecidableEq

/-- A static host route (destination CIDR and next hop). -/
structure HostRoute where
  destinationCIDR : String := ""
  nextHop : String := ""
deriving DecidableEq

/-- subnets.CreateOpts. -/
structure CreateOpts where
  networkID : String := ""
  cidr : String := ""
  name : String := ""
  description : String := ""
  tenantID : String := ""
  projectID : String := ""
  allocationPools : List AllocationPool := []
  gatewayIP : Option String := none
  ipVersion : Nat := 0
  enableDHCP : Option Bool := none
  dnsNameservers : List String := []
  dnsPublishFixedIP : Option Bool := none
  serviceTypes : List String := []
  hostRoutes : List HostRoute := []
  ipv6AddressMode : String := ""
  ipv6RAMode : String := ""
  subnetPoolID : String := ""
  prefixlen : Nat := 0
  segmentID : String := ""
deriving DecidableEq

/-- subnets.UpdateOpts. RevisionNumber carries the json dash tag and the
If-Match header tag, so it never enters the request body. -/
structure UpdateOpts where
  name : Option String := none
  description : Option String := none
  allocationPools : List AllocationPool := []
  gatewayIP : Option String := none
  dnsNameservers : Option (List String) := none
  dnsPublishFixedIP : Option Bool := none
  serviceTypes : Option (List String) := none
  hostRoutes : Option (List HostRoute) := none
  enableDHCP : Option Bool := none
  revisionNumber : Option Int := none
  segmentID : Option String := none
deriving DecidableEq

/-- A string field with the omitempty tag. -/
def strField (k : String) (s : String) : List (String × JVal) :=
  if s = "" then [] else [(k, JVal.str s)]

/-- A numeric field with the omitempty tag. -/
def natField (k : String) (n : Nat) : List (String × JVal) :=
  if n = 0 then [] else [(k, JVal.num (Int.ofNat n))]

/-- A string-pointer field with the omitempty tag: omitted when nil, the
pointed-to string (empty or not) when non-nil. -/
def optStrField (k : String) : Option String → List (String × JVal)
  | none => []
  | some s => [(k, JVal.str s)]

/-- A bool-pointer field with the omitempty tag. -/
def optBoolField (k : String) : Option Bool → List (String × JVal)
  | none => []
  | some b => [(k, JVal.boolean b)]

/-- A string-slice field with the omitempty tag. -/
def listStrField (k : String) (xs : List String) : List (String × JVal) :=
  if xs = [] then [] else [(k, JVal.arr (xs.map JVal.str))]

/-- A string-slice-pointer field with the omitempty tag. -/
def optListStrField (k : String) : Option (List String) → List (String × JVal)
  | none => []
  | some xs => [(k, JVal.arr (xs.map JVal.str))]

def poolJson (p : AllocationPool) : JVal :=
  JVal.obj [("start", JVal.str p.start), ("end", JVal.str p.stop)]

def routeJson (r : HostRoute) : JVal :=
  JVal.obj [("destination", JVal.str r.destinationCIDR), ("nexthop", JVal.str r.nextHop)]

/-- An allocation-pool-slice field with the omitempty tag. -/
def poolsField (k : String) (ps : List AllocationPool) : List (String × JVal) :=
  if ps = [] then [] else [(k, JVal.arr (ps.map poolJson))]

/-- A host-route-slice field with the omitempty tag. -/
def routesField (k : String) (rs : List HostRoute) : List (String × JVal) :=
  if rs = [] then [] else [(k, JVal.arr (rs.map routeJson))]

def optPoolsField (k : String) : Option (List AllocationPool) → List (String × JVal)
  | none => []
  | some ps => [(k, JVal.arr (ps.map poolJson))]

def optRoutesField (k : String) : Option (List HostRoute) → List (String × JVal)
  | none => []
  | some rs => [(k, JVal.arr (rs.map routeJson))]

/-- Modelled from the spec: gophercloud.BuildRequestBody is not part of the
sources. Per its standard behaviour it serializes the tagged struct fields
under the given parent key, omitting omitempty fields whose value is the
zero value (empty string, zero number, nil pointer, nil slice); a non-nil
pointer is serialized as the pointed-to value, so a pointer to the empty
string yields the empty string. This is the inner map for CreateOpts. -/
def createBody (o : CreateOpts) : List (String × JVal) :=
  [("network_id", JVal.str o.networkID)]
  ++ strField "cidr" o.cidr
  ++ strField "name" o.name
  ++ strField "description" o.description
  ++ strField "tenant_id" o.tenantID
  ++ strField "project_id" o.projectID
  ++ poolsField "allocation_pools" o.allocationPools
  ++ optStrField "gateway_ip" o.gatewayIP
  ++ natField "ip_version" o.ipVersion
  ++ optBoolField "enable_dhcp" o.enableDHCP
  ++ listStrField "dns_nameservers" o.dnsNameservers
  ++ optBoolField "dns_publish_fixed_ip" o.dnsPublishFixedIP
  ++ listStrField "service_types" o.serviceTypes
  ++ routesField "host_routes" o.hostRoutes
  ++ strField "ipv6_address_mode" o.ipv6AddressMode
  ++ strField "ipv6_ra_mode" o.ipv6RAMode
  ++ strField "subnetpool_id" o.subnetPoolID
  ++ natField "prefixlen" o.prefixlen
  ++ strField "segment_id" o.segmentID

/-- Modelled from the spec: the inner BuildRequestBody map for UpdateOpts
(RevisionNumber is json-ignored and contributes no body key). -/
def updateBody (o : UpdateOpts) : List (String × JVal) :=
  optStrField "name" o.name
  ++ optStrField "description" o.description
  ++ poolsField "allocation_pools" o.allocationPools
  ++ optStrField "gateway_ip" o.gatewayIP
  ++ optListStrField "dns_nameservers" o.dnsNameservers
  ++ optBoolField "dns_publish_fixed_ip" o.dnsPublishFixedIP
  ++ optListStrField "service_types" o.serviceTypes
  ++ optRoutesField "host_routes" o.hostRoutes
  ++ optBoolField "enable_dhcp" o.enableDHCP
  ++ optStrField "segment_id" o.segmentID

/-- Key lookup in a built request-body map. -/
def jlookup (k : String) : List (String × JVal) → Option JVal
  | [] => none
  | kv :: rest => if kv.1 = k then some kv.2 else jlookup k rest

/-- The gateway_ip rewriting shared by ToSubnetCreateMap and
ToSubnetUpdateMap: when the inner map holds the empty string under
gateway_ip, replace it by null; otherwise leave the map alone. -/
def gatewayFix (m : List (String × JVal)) : List (String × JVal) :=
  match jlookup "gateway_ip" m with
  | some (JVal.str s) =>
    if s = "" then
      m.map (fun kv => if kv.1 = "gateway_ip" then (kv.1, JVal.null) else kv)
    else m
  | _ => m

/-- ToSubnetCreateMap: the body built under the subnet parent key, with the
gateway_ip rewriting applied. -/
def ToSubnetCreateMap (o : CreateOpts) : List (String × JVal) :=
  [("subnet", JVal.obj (gatewayFix (createBody o)))]

/-- ToSubnetUpdateMap: the body built under the subnet parent key, with the
gateway_ip rewriting applied. -/
def ToSubnetUpdateMap (o : UpdateOpts) : List (String × JVal) :=
  [("subnet", JVal.obj (gatewayFix (updateBody o)))]

/-- Modelled from the spec: gophercloud.BuildHeaders is not part of the
sources. Per its standard behaviour it collects the fields carrying an h
tag: a nil pointer contributes no header, a non-nil pointer contributes
the header named by the tag with the printed value. UpdateOpts has exactly
one such field, RevisionNumber with the If-Match tag. -/
def buildHeaders (o : UpdateOpts) : List (String × String) :=
  match o.revisionNumber with
  | none => []
  | some n => [("If-Match", toString n)]

/-- The header rewriting loop of subnets.Update: every If-Match value v is
replaced by the string revision_number= followed by v. -/
def updateHeaders (o : UpdateOpts) : List (String × String) :=
  (buildHeaders o).map (fun kv =>
    if kv.1 = "If-Match" then (kv.1, "revision_number=" ++ kv.2) else kv)

/-- Header lookup. -/
def hlookup (k : String) : List (String × String) → Option String
  | [] => none
  | kv :: rest => if kv.1 = k then some kv.2 else hlookup k rest

/-- The request subnets.Update sends (method, headers and body; the URL is
out of scope here). -/
structure HttpRequest where
  method : String
  headers : List (String × String)
  body : List (String × JVal)

/-- subnets.Update: build the body and the headers, rewrite the If-Match
value, and issue the PUT request. -/
def Update (o : UpdateOpts) : HttpRequest :=
  { method := "PUT", headers := updateHeaders o, body := ToSubnetUpdateMap o }

end Subnets

namespace TokenLock

/-- Modelled from the spec: the token lock installed by UseTokenLock and
taken by the token accessors is not part of the sources. Per the spec, a
reader of the token state and the reauthentication writer each hold the
lock across their whole access, so the two-field token state (token and
catalog) is read and replaced under mutual exclusion. Program counters of
the two processes. -/
inductive RwPC : Type where
  | start
  | locked
  | didToken
  | didCatalog
  | finished
deriving DecidableEq

/-- Whether a process is inside its critical section. -/
def inCS : RwPC → Bool
  | .locked => true
  | .didToken => true
  | .didCatalog => true
  | _ => false

/-- A configuration of the two processes racing on the shared token state:
one reader of the (token, catalog) pair and the reauthentication writer. -/
structure LockCfg where
  readerPC : RwPC
  writerPC : RwPC
  lockFree : Bool
  token : String
  catalog : String
  obsToken : String
  obsCatalog : String
deriving DecidableEq

/-- One step of the reader: acquire the lock (blocking while it is held),
read the token, read the catalog, release. -/
def readerStep (c : LockCfg) : LockCfg :=
  match c.readerPC with
  | .start => if c.lockFree then { c with readerPC := .locked, lockFree := false } else c
  | .locked => { c with readerPC := .didToken, obsToken := c.token }
  | .didToken => { c with readerPC := .didCatalog, obsCatalog := c.catalog }
  | .didCatalog => { c with readerPC := .finished, lockFree := true }
  | .finished => c

/-- One step of the reauthentication writer: acquire the lock, write the
new token, write the new catalog, release. -/
def writerStep (newT newC : String) (c : LockCfg) : LockCfg :=
  match c.writerPC with
  | .start => if c.lockFree then { c with writerPC := .locked, lockFree := false } else c
  | .locked => { c with writerPC := .didToken, token := newT }
  | .didToken => { c with writerPC := .didCatalog, catalog := newC }
  | .didCatalog => { c with writerPC := .finished, lockFree := true }
  | .finished => c

/-- Run a schedule: true steps the writer, false steps the reader. -/
def lockRun (newT newC : String) : List Bool → LockCfg → LockCfg
  | [], c => c
  | b :: rest, c => lockRun newT newC rest (if b then writerStep newT newC c else readerStep c)

/-- Initial configuration: old token state, lock free. -/
def initCfg (oldT oldC : String) : LockCfg :=
  { readerPC := .start, writerPC := .start, lockFree := true,
    token := oldT, catalog := oldC, obsToken := "", obsCatalog := "" }

/-- Whether the writer has already written the token. -/
def wroteToken : RwPC → Bool
  | .didToken => true
  | .didCatalog => true
  | .finished => true
  | _ => false

/-- Whether the writer has already written the catalog. -/
def wroteCatalog : RwPC → Bool
  | .didCatalog => true
  | .finished => true
  | _ => false

/-- The inductive invariant: mutual exclusion, the shared fields determined
by the writer progress, and the reader observation consistent with one of
the two write states. -/
def LockInv (oldT oldC newT newC : String) (c : LockCfg) : Prop :=
  (inCS c.readerPC = false ∨ inCS c.writerPC = false) ∧
  (c.lockFree = true → inCS c.readerPC = false ∧ inCS c.writerPC = false) ∧
  (c.lockFree = false → inCS c.readerPC = true ∨ inCS c.writerPC = true) ∧
  c.token = (if wroteToken c.writerPC then newT else oldT) ∧
  c.catalog = (if wroteCatalog c.writerPC then newC else oldC) ∧
  ((c.readerPC = .didToken ∨ c.readerPC = .didCatalog) → c.obsToken = c.token) ∧
  (c.readerPC = .didCatalog → c.obsCatalog = c.catalog) ∧
  (c.readerPC = .finished →
    (c.obsToken = oldT ∧ c.obsCatalog = oldC) ∨ (c.obsToken = newT ∧ c.obsCatalog = newC))

theorem lockInv_init (oldT oldC newT newC : String) :
    LockInv oldT oldC newT newC (initCfg oldT oldC) := by
  simp [LockInv, initCfg, inCS, wroteToken, wroteCatalog]

theorem lockInv_readerStep (oldT oldC newT newC : String) (c : LockCfg)
    (h : LockInv oldT oldC newT newC c) :
    LockInv oldT oldC newT newC (readerStep c) := by
  obtain ⟨hmx, hfree, hheld, htok, hcat, hobsT, hobsC, hfin⟩ := h
  cases c with
  | mk rpc wpc lf tok cat obsT obsC =>
    cases rpc <;> cases wpc <;> cases lf <;>
      simp_all [readerStep, LockInv, inCS, wroteToken, wroteCatalog]

theorem lockInv_writerStep (oldT oldC newT newC : String) (c : LockCfg)
    (h : LockInv oldT oldC newT newC c) :
    LockInv oldT oldC newT newC (writerStep newT newC c) := by
  obtain ⟨hmx, hfree, hheld, htok, hcat, hobsT, hobsC, hfin⟩ := h
  cases c with
  | mk rpc wpc lf tok cat obsT obsC =>
    cases rpc <;> cases wpc <;> cases lf <;>
      simp_all [writerStep, LockInv, inCS, wroteToken, wroteCatalog]

theorem lockInv_run (oldT oldC newT newC : String) (sched : List Bool) (c : LockCfg)
    (h : LockInv oldT oldC newT newC c) :
    LockInv oldT oldC newT newC (lockRun newT newC sched c) := by
  induction sched generalizing c with
  | nil => exact h
  | cons b rest ih =>
    cases b with
    | false => exact ih _ (lockInv_readerStep oldT oldC newT newC c h)
    | true => exact ih _ (lockInv_writerStep oldT oldC newT newC c h)

end TokenLock

section ProviderLemmas

variable (c other : Provider) (r : AuthResp) (rf : ReauthSpec) (b : Bool)
variable (lc : Option ServiceCatalog)

@[simp] theorem setTokenAndAuthResult_token :
    (c.setTokenAndAuthResult r).token = r.tokenID := by cases c <;> rfl

@[simp] theorem setTokenAndAuthResult_authResult :
    (c.setTokenAndAuthResult r).authResult = some r := by cases c <;> rfl

@[simp] theorem setTokenAndAuthResult_reauth :
    (c.setTokenAndAuthResult r).reauth = c.reauth := by cases c <;> rfl

@[simp] theorem setTokenAndAuthResult_locatorCatalog :
    (c.setTokenAndAuthResult r).locatorCatalog = c.locatorCatalog := by cases c <;> rfl

@[simp] theorem setTokenAndAuthResult_throwaway :
    (c.setTokenAndAuthResult r).throwaway = c.throwaway := by cases c <;> rfl

@[simp] theorem setTokenAndAuthResult_tokenLock :
    (c.setTokenAndAuthResult r).tokenLock = c.tokenLock := by cases c <;> rfl

@[simp] theorem clearTokenAndAuthResult_token :
    c.clearTokenAndAuthResult.token = "" := by cases c <;> rfl

@[simp] theorem clearTokenAndAuthResult_authResult :
    c.clearTokenAndAuthResult.authResult = none := by cases c <;> rfl

@[simp] theorem clearTokenAndAuthResult_reauth :
    c.clearTokenAndAuthResult.reauth = c.reauth := by cases c <;> rfl

@[simp] theorem clearTokenAndAuthResult_throwaway :
    c.clearTokenAndAuthResult.throwaway = c.throwaway := by cases c <;> rfl

@[simp] theorem setReauth_reauth : (c.setReauth rf).reauth = rf := by cases c <;> rfl

@[simp] theorem setReauth_token : (c.setReauth rf).token = c.token := by cases c <;> rfl

@[simp] theorem setReauth_authResult :
    (c.setReauth rf).authResult = c.authResult := by cases c <;> rfl

@[simp] theorem setReauth_locatorCatalog :
    (c.setReauth rf).locatorCatalog = c.locatorCatalog := by cases c <;> rfl

@[simp] theorem setReauth_throwaway :
    (c.setReauth rf).throwaway = c.throwaway := by cases c <;> rfl

@[simp] theorem setThrowaway_throwaway :
    (c.setThrowaway b).throwaway = b := by cases c <;> rfl

@[simp] theorem setThrowaway_token : (c.setThrowaway b).token = c.token := by cases c <;> rfl

@[simp] theorem setThrowaway_authResult :
    (c.setThrowaway b).authResult = c.authResult := by cases c <;> rfl

@[simp] theorem setThrowaway_reauth :
    (c.setThrowaway b).reauth = c.reauth := by cases c <;> rfl

@[simp] theorem setLocatorCatalog_locatorCatalog :
    (c.setLocatorCatalog lc).locatorCatalog = lc := by cases c <;> rfl

@[simp] theorem setLocatorCatalog_token :
    (c.setLocatorCatalog lc).token = c.token := by cases c <;> rfl

@[simp] theorem setLocatorCatalog_authResult :
    (c.setLocatorCatalog lc).authResult = c.authResult := by cases c <;> rfl

@[simp] theorem setLocatorCatalog_reauth :
    (c.setLocatorCatalog lc).reauth = c.reauth := by cases c <;> rfl

@[simp] theorem setLocatorCatalog_tokenLock :
    (c.setLocatorCatalog lc).tokenLock = c.tokenLock := by cases c <;> rfl

@[simp] theorem copyTokenFrom_token :
    (c.copyTokenFrom other).token = other.token := by cases c <;> rfl

@[simp] theorem copyTokenFrom_authResult :
    (c.copyTokenFrom other).authResult = other.authResult := by cases c <;> rfl

@[simp] theorem copyTokenFrom_reauth :
    (c.copyTokenFrom other).reauth = c.reauth := by cases c <;> rfl

@[simp] theorem copyTokenFrom_locatorCatalog :
    (c.copyTokenFrom other).locatorCatalog = c.locatorCatalog := by cases c <;> rfl

end ProviderLemmas

section AuthLemmas

@[simp] theorem v3installTail_token (c : Provider) (ep : String) (opts : V3AuthOpts)
    (cat : ServiceCatalog) : (v3installTail c ep opts cat).token = c.token := by
  unfold v3installTail
  cases h : opts.canReauth <;> simp [h]

@[simp] theorem v3installTail_authResult (c : Provider) (ep : String) (opts : V3AuthOpts)
    (cat : ServiceCatalog) : (v3installTail c ep opts cat).authResult = c.authResult := by
  unfold v3installTail
  cases h : opts.canReauth <;> simp [h]

@[simp] theorem v3installTail_locatorCatalog (c : Provider) (ep : String) (opts : V3AuthOpts)
    (cat : ServiceCatalog) : (v3installTail c ep opts cat).locatorCatalog = some cat := by
  unfold v3installTail
  cases h : opts.canReauth <;> simp [h]

theorem v3installTail_reauth_of_canReauth (c : Provider) (ep : String) (opts : V3AuthOpts)
    (cat : ServiceCatalog) (h : opts.canReauth = true) :
    (v3installTail c ep opts cat).reauth =
      ReauthSpec.v3closure (((c.setThrowaway true).setReauth .noFunc).clearTokenAndAuthResult)
        opts.reauthDisabledCopy ep := by
  unfold v3installTail
  simp [h]

theorem v3installTail_reauth_of_not_canReauth (c : Provider) (ep : String) (opts : V3AuthOpts)
    (cat : ServiceCatalog) (h : opts.canReauth = false) :
    (v3installTail c ep opts cat).reauth = c.reauth := by
  unfold v3installTail
  simp [h]

/-- The throwaway options of the four known builder types report CanReauth
false. -/
theorem reauthDisabledCopy_canReauth (opts : V3AuthOpts) (h : opts.isKnownBuilder = true) :
    opts.reauthDisabledCopy.canReauth = false := by
  cases opts <;> simp_all [V3AuthOpts.isKnownBuilder, V3AuthOpts.reauthDisabledCopy,
    V3AuthOpts.canReauth]

theorem v2installTail_reauth_of_not_canReauth (c : Provider) (ep : String)
    (opts : V2AuthOpts) (cat : ServiceCatalog) (h : opts.canReauth = false) :
    (v2installTail c ep opts cat).reauth = c.reauth := by
  unfold v2installTail
  simp [h]

theorem v2installTail_reauth_of_canReauth (c : Provider) (ep : String)
    (opts : V2AuthOpts) (cat : ServiceCatalog) (h : opts.canReauth = true) :
    (v2installTail c ep opts cat).reauth =
      ReauthSpec.v2closure (((c.setThrowaway true).setReauth .noFunc).clearTokenAndAuthResult)
        (V2AuthOpts.v2TokenNoReauth opts) ep := by
  unfold v2installTail
  simp [h]

@[simp] theorem v2installTail_token (c : Provider) (ep : String) (opts : V2AuthOpts)
    (cat : ServiceCatalog) : (v2installTail c ep opts cat).token = c.token := by
  unfold v2installTail
  cases h : opts.canReauth <;> simp [h]

@[simp] theorem v2installTail_authResult (c : Provider) (ep : String) (opts : V2AuthOpts)
    (cat : ServiceCatalog) : (v2installTail c ep opts cat).authResult = c.authResult := by
  unfold v2installTail
  cases h : opts.canReauth <;> simp [h]

@[simp] theorem v2installTail_locatorCatalog (c : Provider) (ep : String) (opts : V2AuthOpts)
    (cat : ServiceCatalog) : (v2installTail c ep opts cat).locatorCatalog = some cat := by
  unfold v2installTail
  cases h : opts.canReauth <;> simp [h]

/-- When the options forbid reauthentication, v3auth leaves the installed
reauthentication callback of the client untouched. -/
theorem v3auth_reauth_of_not_canReauth (env : V3Env) (c : Provider) (ep : String)
    (opts : V3AuthOpts) (calls : List NetCall) (p : Provider)
    (h : opts.canReauth = false) (hv : v3auth env c ep opts = (calls, .ok p)) :
    p.reauth = c.reauth := by
  unfold v3auth at hv
  split at hv
  · simp at hv
  · split at hv
    · split at hv
      · simp at hv
      · split at hv
        · simp at hv
        · simp only [Prod.mk.injEq, Except.ok.injEq] at hv
          rw [← hv.2, v3installTail_reauth_of_not_canReauth _ _ _ _ h]
          simp
    · split at hv
      · simp at hv
      · simp only [Prod.mk.injEq, Except.ok.injEq] at hv
        rw [← hv.2, v3installTail_reauth_of_not_canReauth _ _ _ _ h]
        simp

/-- When the options forbid reauthentication, v2auth leaves the installed
reauthentication callback of the client untouched. -/
theorem v2auth_reauth_of_not_canReauth (env : V2Env) (c : Provider) (ep : String)
    (opts : V2AuthOpts) (calls : List NetCall) (p : Provider)
    (h : opts.canReauth = false) (hv : v2auth env c ep opts = (calls, .ok p)) :
    p.reauth = c.reauth := by
  unfold v2auth at hv
  split at hv
  · simp at hv
  · split at hv
    · simp at hv
    · simp only [Prod.mk.injEq, Except.ok.injEq] at hv
      rw [← hv.2, v2installTail_reauth_of_not_canReauth _ _ _ _ h]
      simp

end AuthLemmas

/-- Claim C1: for every v3 authentication call whose options carry a non-empty
token ID and no scope, if the options report CanReauth then v3auth issues
no network call at all (in particular no tokens3.Get lookup), and whenever
the identity service client was constructed it returns the misuse error. -/
theorem v3auth_passthrough_reauth_rejected (env : V3Env) (client : Provider)
    (ep : String) (opts : V3AuthOpts) (h1 : opts.tokenID ≠ "")
    (h2 : opts.passthroughToken = true) (h3 : opts.canReauth = true) :
    (v3auth env client ep opts).1 = [] ∧
    (env.identityV3Ok = true →
      v3auth env client ep opts = ([], .error Err.reauthMisuse)) := by
  unfold v3auth
  cases hok : env.identityV3Ok
  · simp [hok]
  · simp [hok, h1, h2, h3]

theorem v3auth_passthrough_reauth_rejected_witness :
    (V3AuthOpts.gophercloudAO "tok" none true).tokenID ≠ "" ∧
    (V3AuthOpts.gophercloudAO "tok" none true).passthroughToken = true ∧
    (V3AuthOpts.gophercloudAO "tok" none true).canReauth = true ∧
    v3auth ⟨true, Except.ok ⟨"tk", []⟩, Except.ok ⟨"tk", []⟩⟩
      (Provider.mk "base" "" none .noFunc none false true) "ep"
      (V3AuthOpts.gophercloudAO "tok" none true) = ([], .error Err.reauthMisuse) := by
  refine ⟨by decide, by decide, by decide, ?_⟩
  exact (v3auth_passthrough_reauth_rejected ⟨true, Except.ok ⟨"tk", []⟩, Except.ok ⟨"tk", []⟩⟩
    (Provider.mk "base" "" none .noFunc none false true) "ep"
    (V3AuthOpts.gophercloudAO "tok" none true) (by decide) (by decide) (by decide)).2 rfl

/-- Claim C2 counterexample: v3auth with a custom AuthOptionsBuilder
implementation (the default case of the reauth type switch) that reports
CanReauth true installs a callback whose captured auth options still
report CanReauth true, refuting, at this concrete input, the claim that
the callback options always report CanReauth false. -/
theorem reauth_callback_canreauth_counterexample :
    (match (v3auth ⟨true, Except.ok ⟨"t", []⟩, Except.ok ⟨"t", []⟩⟩
        (Provider.mk "b" "" none .noFunc none false true) "ep"
        (V3AuthOpts.otherBuilder true)).2 with
     | Except.ok p =>
       match p.reauth with
       | ReauthSpec.v3closure _ tao _ => some tao.canReauth
       | _ => none
     | Except.error _ => none) = some true := rfl

/-- Claim C2 (amended): whenever v2auth, or v3auth on one of the four
built-in auth option types, installs a reauthentication callback, the
callback holds a disposable provider copy with a nil ReauthFunc, marked
throwaway, with cleared token state, and auth options reporting CanReauth
false, so an invocation of the callback performs one fresh authentication
attempt that installs no further callback on the copy; for any other v3
AuthOptionsBuilder implementation the options are passed through
unchanged, so only the nil ReauthFunc on the disposable copy is
guaranteed. -/
theorem reauth_callback_disposable_copy :
    (∀ env client ep opts calls p,
       v3auth env client ep opts = (calls, Except.ok p) →
       opts.canReauth = true →
       ∃ tac, p.reauth = ReauthSpec.v3closure tac opts.reauthDisabledCopy ep ∧
         tac.reauth = ReauthSpec.noFunc ∧ tac.throwaway = true ∧
         tac.token = "" ∧ tac.authResult = none ∧
         (opts.isKnownBuilder = true → opts.reauthDisabledCopy.canReauth = false) ∧
         (opts.isKnownBuilder = true →
           ∀ env2 calls2 q, v3auth env2 tac ep opts.reauthDisabledCopy = (calls2, Except.ok q) →
             q.reauth = ReauthSpec.noFunc)) ∧
    (∀ env client ep opts calls p,
       v2auth env client ep opts = (calls, Except.ok p) →
       opts.canReauth = true →
       ∃ tac, p.reauth = ReauthSpec.v2closure tac (V2AuthOpts.v2TokenNoReauth opts) ep ∧
         tac.reauth = ReauthSpec.noFunc ∧ tac.throwaway = true ∧
         tac.token = "" ∧ tac.authResult = none ∧
         (V2AuthOpts.v2TokenNoReauth opts).canReauth = false ∧
         (∀ env2 calls2 q,
            v2auth env2 tac ep (V2AuthOpts.v2TokenNoReauth opts) = (calls2, Except.ok q) →
            q.reauth = ReauthSpec.noFunc)) := by
  refine ⟨?_, ?_⟩
  · intro env client ep opts calls p hv hcr
    unfold v3auth at hv
    split at hv
    · simp at hv
    · split at hv
      · simp at hv
      · split at hv
        · simp at hv
        · rename_i result heq
          simp only [Prod.mk.injEq, Except.ok.injEq] at hv
          refine ⟨(((client.setTokenAndAuthResult result).setThrowaway
            true).setReauth .noFunc).clearTokenAndAuthResult, ?_, by simp, by simp, by simp,
            by simp, fun hkb => reauthDisabledCopy_canReauth opts hkb, ?_⟩
          · rw [← hv.2]
            exact v3installTail_reauth_of_canReauth _ _ _ _ hcr
          · intro hkb env2 calls2 q hq
            have hc := reauthDisabledCopy_canReauth opts hkb
            have hr := v3auth_reauth_of_not_canReauth env2 _ ep opts.reauthDisabledCopy
              calls2 q hc hq
            rw [hr]
            simp
  · intro env client ep opts calls p hv hcr
    unfold v2auth at hv
    split at hv
    · simp at hv
    · split at hv
      · simp at hv
      · rename_i result heq
        simp only [Prod.mk.injEq, Except.ok.injEq] at hv
        refine ⟨(((client.setTokenAndAuthResult result).setThrowaway
          true).setReauth .noFunc).clearTokenAndAuthResult, ?_, by simp, by simp, by simp,
          by simp, rfl, ?_⟩
        · rw [← hv.2]
          exact v2installTail_reauth_of_canReauth _ _ _ _ hcr
        · intro env2 calls2 q hq
          have hr := v2auth_reauth_of_not_canReauth env2 _ ep (V2AuthOpts.v2TokenNoReauth opts)
            calls2 q rfl hq
          rw [hr]
          simp

theorem reauth_callback_disposable_copy_witness :
    ∃ tac,
      (Provider.mk "b" "tk" (some ⟨"tk", ["svc"]⟩)
        (ReauthSpec.v3closure (Provider.mk "b" "" none .noFunc none true true)
          (V3AuthOpts.gophercloudAO "" none false) "ep") (some ["svc"]) false true).reauth =
        ReauthSpec.v3closure tac (V3AuthOpts.gophercloudAO "" none true).reauthDisabledCopy
          "ep" ∧
      tac.reauth = ReauthSpec.noFunc ∧ tac.throwaway = true ∧
      tac.token = "" ∧ tac.authResult = none ∧
      ((V3AuthOpts.gophercloudAO "" none true).isKnownBuilder = true →
        (V3AuthOpts.gophercloudAO "" none true).reauthDisabledCopy.canReauth = false) ∧
      ((V3AuthOpts.gophercloudAO "" none true).isKnownBuilder = true →
        ∀ env2 calls2 q,
          v3auth env2 tac "ep" (V3AuthOpts.gophercloudAO "" none true).reauthDisabledCopy =
            (calls2, Except.ok q) →
          q.reauth = ReauthSpec.noFunc) := by
  exact reauth_callback_disposable_copy.1
    ⟨true, Except.ok ⟨"t", []⟩, Except.ok ⟨"tk", ["svc"]⟩⟩
    (Provider.mk "b" "" none .noFunc none false true) "ep"
    (V3AuthOpts.gophercloudAO "" none true) [NetCall.tokens3Create]
    (Provider.mk "b" "tk" (some ⟨"tk", ["svc"]⟩)
      (ReauthSpec.v3closure (Provider.mk "b" "" none .noFunc none true true)
        (V3AuthOpts.gophercloudAO "" none false) "ep") (some ["svc"]) false true)
    rfl rfl

/-- Claim C3: an invocation of an installed reauthentication callback that fails
in the inner authentication returns that error and leaves the live
provider unchanged; only on success is CopyTokenFrom applied, copying the
fresh token and auth result into the live provider. Stated for both the v3
and the v2 callbacks. -/
theorem reauth_callback_copies_only_on_success :
    (∀ env live tac tao ep e, (v3auth env tac ep tao).2 = .error e →
       runV3Reauth env live tac tao ep = ((v3auth env tac ep tao).1, some e, live)) ∧
    (∀ env live tac tao ep t, (v3auth env tac ep tao).2 = .ok t →
       runV3Reauth env live tac tao ep =
         ((v3auth env tac ep tao).1, none, live.copyTokenFrom t) ∧
       (live.copyTokenFrom t).token = t.token ∧
       (live.copyTokenFrom t).authResult = t.authResult) ∧
    (∀ env live tac tao ep e, (v2auth env tac ep tao).2 = .error e →
       runV2Reauth env live tac tao ep = ((v2auth env tac ep tao).1, some e, live)) ∧
    (∀ env live tac tao ep t, (v2auth env tac ep tao).2 = .ok t →
       runV2Reauth env live tac tao ep =
         ((v2auth env tac ep tao).1, none, live.copyTokenFrom t) ∧
       (live.copyTokenFrom t).token = t.token ∧
       (live.copyTokenFrom t).authResult = t.authResult) := by
  refine ⟨?_, ?_, ?_, ?_⟩
  · intro env live tac tao ep e h
    unfold runV3Reauth
    rcases hveq : v3auth env tac ep tao with ⟨calls, res⟩
    rw [hveq] at h
    simp at h
    subst h
    simp [hveq]
  · intro env live tac tao ep t h
    unfold runV3Reauth
    rcases hveq : v3auth env tac ep tao with ⟨calls, res⟩
    rw [hveq] at h
    simp at h
    subst h
    simp [hveq]
  · intro env live tac tao ep e h
    unfold runV2Reauth
    rcases hveq : v2auth env tac ep tao with ⟨calls, res⟩
    rw [hveq] at h
    simp at h
    subst h
    simp [hveq]
  · intro env live tac tao ep t h
    unfold runV2Reauth
    rcases hveq : v2auth env tac ep tao with ⟨calls, res⟩
    rw [hveq] at h
    simp at h
    subst h
    simp [hveq]

theorem reauth_callback_copies_only_on_success_witness :
    (v3auth ⟨true, Except.ok ⟨"tk", []⟩, Except.error (Err.httpErr 401)⟩
      (Provider.mk "base" "" none .noFunc none true true) "ep"
      (V3AuthOpts.gophercloudAO "" none false)).2 = .error (Err.httpErr 401) ∧
    runV3Reauth ⟨true, Except.ok ⟨"tk", []⟩, Except.error (Err.httpErr 401)⟩
      (Provider.mk "live" "oldtok" none .noFunc none false true)
      (Provider.mk "base" "" none .noFunc none true true) (V3AuthOpts.gophercloudAO "" none false)
      "ep" =
      ((v3auth ⟨true, Except.ok ⟨"tk", []⟩, Except.error (Err.httpErr 401)⟩
        (Provider.mk "base" "" none .noFunc none true true) "ep"
        (V3AuthOpts.gophercloudAO "" none false)).1, some (Err.httpErr 401),
       Provider.mk "live" "oldtok" none .noFunc none false true) := by
  refine ⟨rfl, ?_⟩
  exact reauth_callback_copies_only_on_success.1
    ⟨true, Except.ok ⟨"tk", []⟩, Except.error (Err.httpErr 401)⟩
    (Provider.mk "live" "oldtok" none .noFunc none false true)
    (Provider.mk "base" "" none .noFunc none true true)
    (V3AuthOpts.gophercloudAO "" none false) "ep" (Err.httpErr 401) rfl

/-- Claim C5: every successful fresh credential exchange (v3auth outside the
token-passthrough path, and every successful v2auth) stores the returned
token and auth result on the provider and installs an EndpointLocator
resolving against the catalog of that same response. -/
theorem fresh_exchange_stores_token_and_locator :
    (∀ env client ep opts resp calls p,
       env.createResp = Except.ok resp →
       (opts.tokenID != "" && opts.passthroughToken) = false →
       v3auth env client ep opts = (calls, .ok p) →
       p.token = resp.tokenID ∧ p.authResult = some resp ∧
       p.locatorCatalog = some resp.catalog) ∧
    (∀ env client ep opts resp calls p,
       env.createResp = Except.ok resp →
       v2auth env client ep opts = (calls, .ok p) →
       p.token = resp.tokenID ∧ p.authResult = some resp ∧
       p.locatorCatalog = some resp.catalog) := by
  refine ⟨?_, ?_⟩
  · intro env client ep opts resp calls p hresp hcond hv
    unfold v3auth at hv
    split at hv
    · simp at hv
    · split at hv
      · simp_all
      · split at hv
        · simp_all
        · rename_i result heq
          rw [hresp] at heq
          injection heq with heq2
          subst heq2
          simp only [Prod.mk.injEq, Except.ok.injEq] at hv
          rw [← hv.2]
          simp
  · intro env client ep opts resp calls p hresp hv
    unfold v2auth at hv
    split at hv
    · simp at hv
    · split at hv
      · simp_all
      · rename_i result heq
        rw [hresp] at heq
        injection heq with heq2
        subst heq2
        simp only [Prod.mk.injEq, Except.ok.injEq] at hv
        rw [← hv.2]
        simp

theorem fresh_exchange_stores_token_and_locator_witness :
    (Provider.mk "base" "tk2" (some ⟨"tk2", ["svc"]⟩) .noFunc (some ["svc"]) false true).token
      = "tk2" ∧
    (Provider.mk "base" "tk2" (some ⟨"tk2", ["svc"]⟩) .noFunc (some ["svc"]) false
      true).authResult = some ⟨"tk2", ["svc"]⟩ ∧
    (Provider.mk "base" "tk2" (some ⟨"tk2", ["svc"]⟩) .noFunc (some ["svc"]) false
      true).locatorCatalog = some ["svc"] := by
  exact fresh_exchange_stores_token_and_locator.1
    ⟨true, Except.ok ⟨"x", []⟩, Except.ok ⟨"tk2", ["svc"]⟩⟩
    (Provider.mk "base" "" none .noFunc none false true) "ep"
    (V3AuthOpts.gophercloudAO "" none false) ⟨"tk2", ["svc"]⟩ [NetCall.tokens3Create]
    (Provider.mk "base" "tk2" (some ⟨"tk2", ["svc"]⟩) .noFunc (some ["svc"]) false true)
    rfl rfl rfl

@[simp] theorem applyDefaults_version (ct : String) (eo : EndpointOpts) :
    (applyDefaults ct eo).version = eo.version := by
  unfold applyDefaults
  split <;> split <;> rfl

theorem initClientOpts_client_isSome (locator : EndpointOpts → Except Err String)
    (eo : EndpointOpts) (ct : String) (v : Nat) :
    ((initClientOpts locator eo ct v).2.1).isSome = true := by
  unfold initClientOpts
  split
  · rfl
  · split <;> rfl

theorem initClientOpts_client_cases (locator : EndpointOpts → Except Err String)
    (eo : EndpointOpts) (ct : String) (v : Nat) :
    (initClientOpts locator eo ct v).2.1 = some ({} : ServiceClient) ∨
    (initClientOpts locator eo ct v).2.2 = none := by
  unfold initClientOpts
  split
  · left
    rfl
  · split
    · left
      rfl
    · right
      rfl

theorem initClientOpts_client_of_err (locator : EndpointOpts → Except Err String)
    (eo : EndpointOpts) (ct : String) (v : Nat) (e : Err)
    (h : (initClientOpts locator eo ct v).2.2 = some e) :
    (initClientOpts locator eo ct v).2.1 = some ({} : ServiceClient) := by
  rcases initClientOpts_client_cases locator eo ct v with hc | hc
  · exact hc
  · rw [hc] at h
    exact absurd h (by simp)

/-- Claim C4: when the discovery document advertises both v2.0 and v3,
the spec-modelled ChooseVersion picks the v3 entry (priority 30 over 20)
with the absolute endpoint computed from its suffix, Authenticate then
proceeds by running v3auth against that endpoint, and the dispatch switch
returns the unrecognized-identity-version error for any other chosen
version ID. -/
theorem authenticate_prefers_v3 (env3 : V3Env) (env2 : V2Env) (client : Provider)
    (options : AuthOptions) (advertised : List String)
    (h2 : "v2.0" ∈ advertised) (h3 : "v3" ∈ advertised) :
    chooseVersion client.identityBase advertised identityVersions =
      .ok (⟨"v3", 30, "/v3/"⟩, client.identityBase ++ "/v3/") ∧
    Authenticate env3 env2 client options advertised =
      v3auth env3 client (client.identityBase ++ "/v3/") options.toV3 ∧
    (∀ chosen ep o3 o2, chosen.id ≠ "v2.0" → chosen.id ≠ "v3" →
      authDispatch env3 env2 client chosen ep o3 o2 =
        ([], .error (Err.unrecognizedVersion chosen.id))) := by
  have hchoose : chooseVersion client.identityBase advertised identityVersions =
      .ok (⟨"v3", 30, "/v3/"⟩, client.identityBase ++ "/v3/") := by
    unfold chooseVersion identityVersions
    simp [h2, h3]
  refine ⟨hchoose, ?_, ?_⟩
  · unfold Authenticate
    rw [hchoose]
    unfold authDispatch
    simp
  · intro chosen ep o3 o2 hne2 hne3
    unfold authDispatch
    simp [hne2, hne3]

theorem authenticate_prefers_v3_witness :
    chooseVersion (Provider.mk "http://id" "" none .noFunc none false true).identityBase
      ["v2.0", "v3"] identityVersions =
      .ok (⟨"v3", 30, "/v3/"⟩,
        (Provider.mk "http://id" "" none .noFunc none false true).identityBase ++ "/v3/") ∧
    Authenticate ⟨true, Except.ok ⟨"t", []⟩, Except.ok ⟨"t", []⟩⟩ ⟨true, Except.ok ⟨"t", []⟩⟩
      (Provider.mk "http://id" "" none .noFunc none false true) {} ["v2.0", "v3"] =
      v3auth ⟨true, Except.ok ⟨"t", []⟩, Except.ok ⟨"t", []⟩⟩
        (Provider.mk "http://id" "" none .noFunc none false true)
        ((Provider.mk "http://id" "" none .noFunc none false true).identityBase ++ "/v3/")
        (AuthOptions.toV3 {}) ∧
    (∀ chosen ep o3 o2, chosen.id ≠ "v2.0" → chosen.id ≠ "v3" →
      authDispatch ⟨true, Except.ok ⟨"t", []⟩, Except.ok ⟨"t", []⟩⟩ ⟨true, Except.ok ⟨"t", []⟩⟩
        (Provider.mk "http://id" "" none .noFunc none false true) chosen ep o3 o2 =
        ([], .error (Err.unrecognizedVersion chosen.id))) := by
  exact authenticate_prefers_v3 ⟨true, Except.ok ⟨"t", []⟩, Except.ok ⟨"t", []⟩⟩
    ⟨true, Except.ok ⟨"t", []⟩⟩ (Provider.mk "http://id" "" none .noFunc none false true) {}
    ["v2.0", "v3"] (by decide) (by decide)

/-- Claim C7: a service-client constructor built on initClientOpts rejects
an explicitly requested version that conflicts with the fixed major
version immediately, without consulting the endpoint locator; the locator
is consulted at most once on every path (no retry); and the Authenticate
dispatch returns the unrecognized-identity-version error for a chosen
version outside v2.0 and v3. -/
theorem config_errors_fatal_no_retry :
    (∀ locator eo ct v, eo.version ≠ 0 → eo.version ≠ v →
       initClientOpts locator eo ct v =
         ([], some ({} : ServiceClient), some Err.versionConflict)) ∧
    (∀ locator eo ct v, ((initClientOpts locator eo ct v).1).length ≤ 1) ∧
    (∀ env3 env2 c chosen ep o3 o2, chosen.id ≠ "v2.0" → chosen.id ≠ "v3" →
       authDispatch env3 env2 c chosen ep o3 o2 =
         ([], .error (Err.unrecognizedVersion chosen.id))) := by
  refine ⟨?_, ?_, ?_⟩
  · intro locator eo ct v h0 hv
    unfold initClientOpts
    rw [if_pos]
    exact ⟨by simpa using h0, by simpa using hv⟩
  · intro locator eo ct v
    unfold initClientOpts
    split
    · simp
    · split <;> simp
  · intro env3 env2 c chosen ep o3 o2 hne2 hne3
    unfold authDispatch
    simp [hne2, hne3]

theorem config_errors_fatal_no_retry_witness :
    initClientOpts (fun _ => Except.error Err.locatorFailed) { version := 5 } "network" 2 =
      ([], some ({} : ServiceClient), some Err.versionConflict) := by
  exact config_errors_fatal_no_retry.1 (fun _ => Except.error Err.locatorFailed)
    { version := 5 } "network" 2 (by decide) (by decide)

/-- Claim C10: initClientOpts always returns a non-nil client (a zero-valued
one alongside any error), so NewNetworkV2 and NewBareMetalV1, which set
ResourceBase from the returned client before checking the error, never
dereference nil, and on error they return a non-nil client whose
ResourceBase is built from the empty Endpoint. -/
theorem newNetworkV2_of_init (locator : EndpointOpts → Except Err String)
    (eo : EndpointOpts) (calls : List EndpointOpts) (sc : ServiceClient) (oerr : Option Err)
    (hi : initClientOpts locator eo "network" 2 = (calls, some sc, oerr)) :
    NewNetworkV2 locator eo =
      (some { sc with resourceBase := sc.endpoint ++ "v2.0/" }, oerr) := by
  unfold NewNetworkV2
  rw [hi]

theorem newBareMetalV1_of_init (locator : EndpointOpts → Except Err String)
    (eo : EndpointOpts) (calls : List EndpointOpts) (sc : ServiceClient) (oerr : Option Err)
    (hi : initClientOpts locator eo "baremetal" 1 = (calls, some sc, oerr)) :
    NewBareMetalV1 locator eo =
      (if goHasSuffix (goTrimSuffix sc.endpoint "/") "v1" = false then
        (some { sc with resourceBase := sc.endpoint ++ "v1/" }, oerr)
      else (some sc, oerr)) := by
  unfold NewBareMetalV1
  rw [hi]

theorem init_client_never_nil :
    (∀ locator eo ct v, ((initClientOpts locator eo ct v).2.1).isSome = true) ∧
    (∀ locator eo ct v e, (initClientOpts locator eo ct v).2.2 = some e →
       (initClientOpts locator eo ct v).2.1 = some ({} : ServiceClient)) ∧
    (∀ locator eo, ((NewNetworkV2 locator eo).1).isSome = true) ∧
    (∀ locator eo e, (NewNetworkV2 locator eo).2 = some e →
       (NewNetworkV2 locator eo).1 = some ({ resourceBase := "v2.0/" } : ServiceClient)) ∧
    (∀ locator eo, ((NewBareMetalV1 locator eo).1).isSome = true) ∧
    (∀ locator eo e, (NewBareMetalV1 locator eo).2 = some e →
       (NewBareMetalV1 locator eo).1 = some ({ resourceBase := "v1/" } : ServiceClient)) := by
  refine ⟨initClientOpts_client_isSome, initClientOpts_client_of_err, ?_, ?_, ?_, ?_⟩
  · intro locator eo
    rcases hi : initClientOpts locator eo "network" 2 with ⟨calls, osc, oerr⟩
    have hs := initClientOpts_client_isSome locator eo "network" 2
    rw [hi] at hs
    cases osc with
    | none => simp at hs
    | some sc =>
      rw [newNetworkV2_of_init locator eo calls sc oerr hi]
      rfl
  · intro locator eo e h
    rcases hi : initClientOpts locator eo "network" 2 with ⟨calls, osc, oerr⟩
    cases osc with
    | none =>
      have hs := initClientOpts_client_isSome locator eo "network" 2
      rw [hi] at hs
      simp at hs
    | some sc =>
      rw [newNetworkV2_of_init locator eo calls sc oerr hi] at h ⊢
      simp only at h
      subst h
      have hz := initClientOpts_client_of_err locator eo "network" 2 e (by rw [hi])
      rw [hi] at hz
      simp at hz
      subst hz
      rfl
  · intro locator eo
    rcases hi : initClientOpts locator eo "baremetal" 1 with ⟨calls, osc, oerr⟩
    have hs := initClientOpts_client_isSome locator eo "baremetal" 1
    rw [hi] at hs
    cases osc with
    | none => simp at hs
    | some sc =>
      rw [newBareMetalV1_of_init locator eo calls sc oerr hi]
      split <;> rfl
  · intro locator eo e h
    rcases hi : initClientOpts locator eo "baremetal" 1 with ⟨calls, osc, oerr⟩
    cases osc with
    | none =>
      have hs := initClientOpts_client_isSome locator eo "baremetal" 1
      rw [hi] at hs
      simp at hs
    | some sc =>
      rw [newBareMetalV1_of_init locator eo calls sc oerr hi] at h ⊢
      have hoerr : oerr = some e := by
        revert h
        split <;> simp
      subst hoerr
      have hz := initClientOpts_client_of_err locator eo "baremetal" 1 e (by rw [hi])
      rw [hi] at hz
      simp at hz
      subst hz
      rw [if_pos (by decide)]
      rfl

/-- Claim C6: NewClient enables the token lock on every provider it
returns, and under the spec-modelled lock discipline (reads of the token
pair and the reauthentication write each hold the lock) every schedule of
a reader racing the reauthentication writer leaves the reader observing
either the old token together with the old catalog or the new token
together with the new catalog, never a mixed or partially-updated pair. -/
theorem token_lock_serializes_reauth :
    (∀ baseR ep p, NewClient baseR ep = .ok p → p.tokenLock = true) ∧
    (∀ oldT oldC newT newC sched,
       (TokenLock.lockRun newT newC sched (TokenLock.initCfg oldT oldC)).readerPC =
         TokenLock.RwPC.finished →
       ((TokenLock.lockRun newT newC sched (TokenLock.initCfg oldT oldC)).obsToken = oldT ∧
        (TokenLock.lockRun newT newC sched (TokenLock.initCfg oldT oldC)).obsCatalog = oldC) ∨
       ((TokenLock.lockRun newT newC sched (TokenLock.initCfg oldT oldC)).obsToken = newT ∧
        (TokenLock.lockRun newT newC sched (TokenLock.initCfg oldT oldC)).obsCatalog = newC)) := by
  refine ⟨?_, ?_⟩
  · intro baseR ep p h
    unfold NewClient at h
    cases baseR with
    | error e => simp at h
    | ok base =>
      injection h with h2
      rw [← h2]
      rfl
  · intro oldT oldC newT newC sched hfin
    have hinv := TokenLock.lockInv_run oldT oldC newT newC sched _
      (TokenLock.lockInv_init oldT oldC newT newC)
    exact hinv.2.2.2.2.2.2.2 hfin

theorem token_lock_serializes_reauth_witness :
    (Provider.mk "b" "" none .noFunc none false true).tokenLock = true ∧
    (((TokenLock.lockRun "nt" "nc" [false, false, false, false]
        (TokenLock.initCfg "ot" "oc")).obsToken = "ot" ∧
      (TokenLock.lockRun "nt" "nc" [false, false, false, false]
        (TokenLock.initCfg "ot" "oc")).obsCatalog = "oc") ∨
     ((TokenLock.lockRun "nt" "nc" [false, false, false, false]
        (TokenLock.initCfg "ot" "oc")).obsToken = "nt" ∧
      (TokenLock.lockRun "nt" "nc" [false, false, false, false]
        (TokenLock.initCfg "ot" "oc")).obsCatalog = "nc")) := by
  refine ⟨?_, ?_⟩
  · exact token_lock_serializes_reauth.1 (Except.ok "b") "e"
      (Provider.mk "b" "" none .noFunc none false true) rfl
  · exact token_lock_serializes_reauth.2 "ot" "oc" "nt" "nc" [false, false, false, false]
      (by decide)

/-- Claim C8: subnets.Update sends an If-Match header whose value is
exactly the string revision_number= followed by the revision number
whenever UpdateOpts carries a non-nil RevisionNumber, and sends no
If-Match header when it is nil. -/
theorem update_ifmatch_header (o : Subnets.UpdateOpts) :
    (∀ n, o.revisionNumber = some n →
       (Subnets.Update o).headers = [("If-Match", "revision_number=" ++ toString n)]) ∧
    (o.revisionNumber = none →
       Subnets.hlookup "If-Match" (Subnets.Update o).headers = none) := by
  constructor
  · intro n hn
    unfold Subnets.Update Subnets.updateHeaders Subnets.buildHeaders
    rw [hn]
    simp
  · intro hn
    unfold Subnets.Update Subnets.updateHeaders Subnets.buildHeaders
    rw [hn]
    rfl

theorem update_ifmatch_header_witness :
    (Subnets.Update { revisionNumber := some 42 }).headers =
      [("If-Match", "revision_number=" ++ toString (42 : Int))] := by
  exact (update_ifmatch_header { revisionNumber := some 42 }).1 42 rfl

theorem init_client_never_nil_witness :
    (NewNetworkV2 (fun _ => Except.error Err.locatorFailed) {}).2 = some Err.locatorFailed ∧
    (NewNetworkV2 (fun _ => Except.error Err.locatorFailed) {}).1 =
      some ({ resourceBase := "v2.0/" } : ServiceClient) := by
  refine ⟨rfl, ?_⟩
  exact init_client_never_nil.2.2.2.1 (fun _ => Except.error Err.locatorFailed) {}
    Err.locatorFailed rfl

namespace Subnets

theorem jlookup_append_none (k : String) (xs ys : List (String × JVal))
    (h : jlookup k xs = none) : jlookup k (xs ++ ys) = jlookup k ys := by
  induction xs with
  | nil => rfl
  | cons kv rest ih =>
    by_cases hk : kv.1 = k
    · simp [jlookup, hk] at h
    · simp only [List.cons_append, jlookup, if_neg hk] at h ⊢
      exact ih h

theorem jlookup_append_some (k : String) (xs ys : List (String × JVal)) (v : JVal)
    (h : jlookup k xs = some v) : jlookup k (xs ++ ys) = some v := by
  induction xs with
  | nil => simp [jlookup] at h
  | cons kv rest ih =>
    by_cases hk : kv.1 = k
    · simp only [jlookup, if_pos hk] at h
      simp only [List.cons_append, jlookup, if_pos hk]
      exact h
    · simp only [List.cons_append, jlookup, if_neg hk] at h ⊢
      exact ih h

theorem jlookup_strField_ne (k k2 s : String) (h : k2 ≠ k) :
    jlookup k (strField k2 s) = none := by
  unfold strField
  split <;> simp [jlookup, h]

theorem jlookup_natField_ne (k k2 : String) (n : Nat) (h : k2 ≠ k) :
    jlookup k (natField k2 n) = none := by
  unfold natField
  split <;> simp [jlookup, h]

theorem jlookup_optStrField_ne (k k2 : String) (s : Option String) (h : k2 ≠ k) :
    jlookup k (optStrField k2 s) = none := by
  cases s <;> simp [optStrField, jlookup, h]

theorem jlookup_optBoolField_ne (k k2 : String) (b : Option Bool) (h : k2 ≠ k) :
    jlookup k (optBoolField k2 b) = none := by
  cases b <;> simp [optBoolField, jlookup, h]

theorem jlookup_listStrField_ne (k k2 : String) (xs : List String) (h : k2 ≠ k) :
    jlookup k (listStrField k2 xs) = none := by
  unfold listStrField
  split <;> simp [jlookup, h]

theorem jlookup_optListStrField_ne (k k2 : String) (xs : Option (List String)) (h : k2 ≠ k) :
    jlookup k (optListStrField k2 xs) = none := by
  cases xs <;> simp [optListStrField, jlookup, h]

theorem jlookup_poolsField_ne (k k2 : String) (ps : List AllocationPool) (h : k2 ≠ k) :
    jlookup k (poolsField k2 ps) = none := by
  unfold poolsField
  split <;> simp [jlookup, h]

theorem jlookup_routesField_ne (k k2 : String) (rs : List HostRoute) (h : k2 ≠ k) :
    jlookup k (routesField k2 rs) = none := by
  unfold routesField
  split <;> simp [jlookup, h]

theorem jlookup_optPoolsField_ne (k k2 : String) (ps : Option (List AllocationPool))
    (h : k2 ≠ k) : jlookup k (optPoolsField k2 ps) = none := by
  cases ps <;> simp [optPoolsField, jlookup, h]

theorem jlookup_optRoutesField_ne (k k2 : String) (rs : Option (List HostRoute))
    (h : k2 ≠ k) : jlookup k (optRoutesField k2 rs) = none := by
  cases rs <;> simp [optRoutesField, jlookup, h]

theorem jlookup_gateway_createBody (o : CreateOpts) :
    jlookup "gateway_ip" (createBody o) = o.gatewayIP.map JVal.str := by
  unfold createBody
  simp only [List.append_assoc]
  rw [jlookup_append_none, jlookup_append_none, jlookup_append_none, jlookup_append_none,
    jlookup_append_none, jlookup_append_none, jlookup_append_none]
  · cases hg : o.gatewayIP with
    | none =>
      rw [jlookup_append_none]
      · rw [jlookup_append_none, jlookup_append_none, jlookup_append_none, jlookup_append_none,
          jlookup_append_none, jlookup_append_none, jlookup_append_none, jlookup_append_none,
          jlookup_append_none, jlookup_append_none]
        · exact jlookup_strField_ne _ _ _ (by decide)
        all_goals first
          | exact jlookup_strField_ne _ _ _ (by decide)
          | exact jlookup_natField_ne _ _ _ (by decide)
          | exact jlookup_optBoolField_ne _ _ _ (by decide)
          | exact jlookup_listStrField_ne _ _ _ (by decide)
          | exact jlookup_routesField_ne _ _ _ (by decide)
      · rfl
    | some g =>
      have hs : jlookup "gateway_ip" (optStrField "gateway_ip" (some g)) =
          some (JVal.str g) := by
        simp [optStrField, jlookup]
      rw [jlookup_append_some _ _ _ _ hs]
      rfl
  all_goals first
    | exact jlookup_strField_ne _ _ _ (by decide)
    | exact jlookup_poolsField_ne _ _ _ (by decide)
    | simp [jlookup]

theorem jlookup_gateway_updateBody (o : UpdateOpts) :
    jlookup "gateway_ip" (updateBody o) = o.gatewayIP.map JVal.str := by
  unfold updateBody
  simp only [List.append_assoc]
  rw [jlookup_append_none, jlookup_append_none, jlookup_append_none]
  · cases hg : o.gatewayIP with
    | none =>
      rw [jlookup_append_none]
      · rw [jlookup_append_none, jlookup_append_none, jlookup_append_none, jlookup_append_none,
          jlookup_append_none]
        · exact jlookup_optStrField_ne _ _ _ (by decide)
        all_goals first
          | exact jlookup_optListStrField_ne _ _ _ (by decide)
          | exact jlookup_optBoolField_ne _ _ _ (by decide)
          | exact jlookup_optRoutesField_ne _ _ _ (by decide)
      · rfl
    | some g =>
      have hs : jlookup "gateway_ip" (optStrField "gateway_ip" (some g)) =
          some (JVal.str g) := by
        simp [optStrField, jlookup]
      rw [jlookup_append_some _ _ _ _ hs]
      rfl
  all_goals first
    | exact jlookup_optStrField_ne _ _ _ (by decide)
    | exact jlookup_poolsField_ne _ _ _ (by decide)

theorem jlookup_map_gatewayNull (k : String) (m : List (String × JVal))
    (h : k ≠ "gateway_ip") :
    jlookup k (m.map (fun kv => if kv.1 = "gateway_ip" then (kv.1, JVal.null) else kv)) =
      jlookup k m := by
  induction m with
  | nil => rfl
  | cons kv rest ih =>
    simp only [List.map_cons]
    by_cases hg : kv.1 = "gateway_ip"
    · have hk : ¬kv.1 = k := fun hh => h (hg ▸ hh ▸ rfl)
      simp [jlookup, hg, hk, ih, Ne.symm h]
    · by_cases hk : kv.1 = k <;> simp [jlookup, hg, hk, ih, h]

theorem jlookup_map_gatewaySome (m : List (String × JVal)) (v : JVal)
    (h : jlookup "gateway_ip" m = some v) :
    jlookup "gateway_ip"
      (m.map (fun kv => if kv.1 = "gateway_ip" then (kv.1, JVal.null) else kv)) =
      some JVal.null := by
  induction m with
  | nil => simp [jlookup] at h
  | cons kv rest ih =>
    simp only [List.map_cons]
    by_cases hg : kv.1 = "gateway_ip"
    · simp [jlookup, hg]
    · simp only [jlookup, if_neg hg] at h
      simp [jlookup, hg, ih h]

theorem jlookup_gatewayFix_ne (k : String) (m : List (String × JVal))
    (h : k ≠ "gateway_ip") : jlookup k (gatewayFix m) = jlookup k m := by
  unfold gatewayFix
  split
  · split
    · exact jlookup_map_gatewayNull k m h
    · rfl
  · rfl

theorem jlookup_gatewayFix_empty (m : List (String × JVal))
    (h : jlookup "gateway_ip" m = some (JVal.str "")) :
    jlookup "gateway_ip" (gatewayFix m) = some JVal.null := by
  unfold gatewayFix
  rw [h]
  simp only [reduceIte]
  exact jlookup_map_gatewaySome m _ h

theorem gatewayFix_of_none (m : List (String × JVal))
    (h : jlookup "gateway_ip" m = none) : gatewayFix m = m := by
  unfold gatewayFix
  rw [h]

end Subnets

/-- Claim C9: in the bodies built by ToSubnetCreateMap and
ToSubnetUpdateMap, a GatewayIP pointing to the empty string makes the
gateway_ip key map to null, a nil GatewayIP omits the key entirely, and
the gateway rewriting leaves every other key of the built body
unchanged. -/
theorem gateway_empty_string_maps_to_null (oc : Subnets.CreateOpts)
    (ou : Subnets.UpdateOpts) :
    Subnets.ToSubnetCreateMap oc =
      [("subnet", JVal.obj (Subnets.gatewayFix (Subnets.createBody oc)))] ∧
    (oc.gatewayIP = some "" →
       Subnets.jlookup "gateway_ip" (Subnets.gatewayFix (Subnets.createBody oc)) =
         some JVal.null) ∧
    (oc.gatewayIP = none →
       Subnets.jlookup "gateway_ip" (Subnets.gatewayFix (Subnets.createBody oc)) = none) ∧
    (∀ k, k ≠ "gateway_ip" →
       Subnets.jlookup k (Subnets.gatewayFix (Subnets.createBody oc)) =
         Subnets.jlookup k (Subnets.createBody oc)) ∧
    Subnets.ToSubnetUpdateMap ou =
      [("subnet", JVal.obj (Subnets.gatewayFix (Subnets.updateBody ou)))] ∧
    (ou.gatewayIP = some "" →
       Subnets.jlookup "gateway_ip" (Subnets.gatewayFix (Subnets.updateBody ou)) =
         some JVal.null) ∧
    (ou.gatewayIP = none →
       Subnets.jlookup "gateway_ip" (Subnets.gatewayFix (Subnets.updateBody ou)) = none) ∧
    (∀ k, k ≠ "gateway_ip" →
       Subnets.jlookup k (Subnets.gatewayFix (Subnets.updateBody ou)) =
         Subnets.jlookup k (Subnets.updateBody ou)) := by
  refine ⟨rfl, ?_, ?_, ?_, rfl, ?_, ?_, ?_⟩
  · intro hg
    apply Subnets.jlookup_gatewayFix_empty
    rw [Subnets.jlookup_gateway_createBody, hg]
    rfl
  · intro hg
    rw [Subnets.gatewayFix_of_none]
    · rw [Subnets.jlookup_gateway_createBody, hg]
      rfl
    · rw [Subnets.jlookup_gateway_createBody, hg]
      rfl
  · intro k hk
    exact Subnets.jlookup_gatewayFix_ne k _ hk
  · intro hg
    apply Subnets.jlookup_gatewayFix_empty
    rw [Subnets.jlookup_gateway_updateBody, hg]
    rfl
  · intro hg
    rw [Subnets.gatewayFix_of_none]
    · rw [Subnets.jlookup_gateway_updateBody, hg]
      rfl
    · rw [Subnets.jlookup_gateway_updateBody, hg]
      rfl
  · intro k hk
    exact Subnets.jlookup_gatewayFix_ne k _ hk

theorem gateway_empty_string_maps_to_null_witness :
    Subnets.jlookup "gateway_ip"
      (Subnets.gatewayFix (Subnets.createBody
        { networkID := "net1", gatewayIP := some "" })) = some JVal.null := by
  exact (gateway_empty_string_maps_to_null
    { networkID := "net1", gatewayIP := some "" } {}).2.1 rfl

end Gophercloud
